import Mathlib

/-!
Verification of the Longan Nano SD-card driver (src/lib/sdcard/sd_card.cpp and
src/lib/sdcard/sd_spi_hal.cpp) against its natural-language specification.

The development has three layers, each a shallow embedding of the source:

* A byte-level model of the SPI bus primitives of sd_card.cpp
  (xchg_spi, wait_ready, deselect, _select, send_cmd, xmit_datablock and the
  power-on dummy-clock loop of sd_init).  The bus is an environment giving the
  byte received by the i-th exchange; the state records how many exchanges
  happened, every transmitted byte together with the chip-select level at the
  time it was sent, and the current chip-select level.  Millisecond timeout
  counters that the hardware timer decrements asynchronously are modelled as
  fuel consumed one unit per loop iteration, keeping the loop structure and
  exit conditions of the source exact.

* A command-level model of sd_init, sd_read_blocks and sd_write_blocks,
  transcribing their control flow with the card's R1 responses and the
  outcomes of the data-block primitives supplied as environment functions,
  and recording the commands issued and data tokens sent.

* A model of the DMA status cell and timer tick of sd_spi_hal.cpp.
-/

namespace LonganSd

/-- FatFs status bit STA_NOINIT from sd_card.h. -/
def STA_NOINIT : Nat := 0x01
/-- FatFs status bit STA_NODISK from sd_card.h. -/
def STA_NODISK : Nat := 0x02
/-- FatFs status bit STA_PROTECT from sd_card.h. -/
def STA_PROTECT : Nat := 0x04

/-- Card type flag CT_MMC from sd_card.cpp. -/
def CT_MMC : Nat := 0x01
/-- Card type flag CT_SD1 from sd_card.cpp. -/
def CT_SD1 : Nat := 0x02
/-- Card type flag CT_SD2 from sd_card.cpp. -/
def CT_SD2 : Nat := 0x04
/-- Card type mask CT_SDC = CT_SD1 | CT_SD2 from sd_card.cpp. -/
def CT_SDC : Nat := CT_SD1 ||| CT_SD2
/-- Card type flag CT_BLOCK from sd_card.cpp. -/
def CT_BLOCK : Nat := 0x08

/-- FatFs result codes (DRESULT in sd_card.h). -/
inductive DRESULT where
  | RES_OK
  | RES_ERROR
  | RES_WRPRT
  | RES_NOTRDY
  | RES_PARERR
deriving DecidableEq, Repr

/-- The SPI environment: rx i is the raw byte the card puts on the bus during
the i-th full-duplex exchange (counted from 0). -/
structure Bus where
  rx : Nat → Nat

/-- State of the SPI transport: number of exchanges done so far, the log of
transmitted bytes paired with the chip-select level (true = deasserted/high)
at the moment of transmission, and the current chip-select level. -/
structure BusState where
  pos : Nat
  sent : List (Nat × Bool)
  cs : Bool
deriving DecidableEq, Repr

/-- Initial transport state in sd_init: nothing exchanged, chip select driven
high by the GPIO setup (CS_HIGH() in sd_init). -/
def initBusState : BusState := ⟨0, [], true⟩

/-- CS_HIGH() macro of sd_card.cpp. -/
def cs_high (st : BusState) : BusState := { st with cs := true }

/-- CS_LOW() macro of sd_card.cpp. -/
def cs_low (st : BusState) : BusState := { st with cs := false }

/-- xchg_spi of sd_card.cpp: one blocking full-duplex byte exchange.  The
transmitted byte is truncated to 8 bits (BYTE argument) and logged with the
chip-select level; the received byte is the environment's next rx byte
truncated to 8 bits (BYTE return of spi_i2s_data_receive). -/
def xchg_spi (bus : Bus) (st : BusState) (d : Nat) : Nat × BusState :=
  (bus.rx st.pos % 256,
   { pos := st.pos + 1, sent := st.sent ++ [(d % 256, st.cs)], cs := st.cs })

@[simp] theorem xchg_spi_fst (bus : Bus) (st : BusState) (d : Nat) :
    (xchg_spi bus st d).1 = bus.rx st.pos % 256 := rfl

@[simp] theorem xchg_spi_pos (bus : Bus) (st : BusState) (d : Nat) :
    (xchg_spi bus st d).2.pos = st.pos + 1 := rfl

@[simp] theorem xchg_spi_sent (bus : Bus) (st : BusState) (d : Nat) :
    (xchg_spi bus st d).2.sent = st.sent ++ [(d % 256, st.cs)] := rfl

@[simp] theorem xchg_spi_cs (bus : Bus) (st : BusState) (d : Nat) :
    (xchg_spi bus st d).2.cs = st.cs := rfl

/-- Loop body of wait_ready in sd_card.cpp:
do d = xchg_spi(0xFF) while (d != 0xFF && Timer2); return d == 0xFF.
Timer2, armed to wt milliseconds and decremented by the timer interrupt, is
modelled as fuel consumed one unit per iteration. -/
def waitReadyGo (bus : Bus) : Nat → BusState → Bool × BusState
  | 0, st =>
    let p := xchg_spi bus st 0xFF
    if p.1 = 0xFF then (true, p.2) else (false, p.2)
  | fuel + 1, st =>
    let p := xchg_spi bus st 0xFF
    if p.1 = 0xFF then (true, p.2) else waitReadyGo bus fuel p.2

/-- wait_ready of sd_card.cpp with its millisecond budget wt as fuel. -/
def wait_ready (bus : Bus) (st : BusState) (wt : Nat) : Bool × BusState :=
  waitReadyGo bus wt st

/-- When the very next received byte is 0xFF the card is ready at once:
wait_ready succeeds after exactly one exchange, for any budget. -/
theorem waitReadyGo_ready (bus : Bus) (st : BusState)
    (h : bus.rx st.pos % 256 = 0xFF) :
    ∀ fuel, waitReadyGo bus fuel st = (true, (xchg_spi bus st 0xFF).2) := by
  intro fuel
  cases fuel <;> simp [waitReadyGo, h]

/-- deselect of sd_card.cpp: raise chip select, then one dummy exchange. -/
def deselect (bus : Bus) (st : BusState) : BusState :=
  (xchg_spi bus (cs_high st) 0xFF).2

/-- _select of sd_card.cpp: lower chip select, wait for readiness (500 ms
budget); on timeout deselect and fail. -/
def sd_select (bus : Bus) (st : BusState) : Bool × BusState :=
  let w := wait_ready bus (cs_low st) 500
  if w.1 then (true, w.2) else (false, deselect bus w.2)

/-- Response-poll loop at the end of send_cmd in sd_card.cpp:
n = 10; do res = xchg_spi(0xFF) while ((res & 0x80) && --n); return res.
The fuel is the number of exchanges still allowed (10 at entry). -/
def resPollGo (bus : Bus) : Nat → BusState → Nat × BusState
  | 0, st => (0, st)
  | fuel + 1, st =>
    let p := xchg_spi bus st 0xFF
    if p.1 &&& 0x80 = 0 then p
    else
      match fuel with
      | 0 => p
      | f + 1 => resPollGo bus (f + 1) p.2

/-- Frame transmission and response polling of send_cmd in sd_card.cpp:
0x40|cmd, the four argument bytes most-significant first, the CRC byte
(0x95 for CMD0, 0x87 for CMD8, else 0x01), one extra dummy byte after CMD12,
then the 10-exchange response poll. -/
def cmdFrame (bus : Bus) (st : BusState) (cmd arg : Nat) : Nat × BusState :=
  let st1 := (xchg_spi bus st (0x40 ||| cmd)).2
  let st2 := (xchg_spi bus st1 (arg >>> 24)).2
  let st3 := (xchg_spi bus st2 (arg >>> 16)).2
  let st4 := (xchg_spi bus st3 (arg >>> 8)).2
  let st5 := (xchg_spi bus st4 arg).2
  let st6 := (xchg_spi bus st5 (if cmd = 0 then 0x95 else if cmd = 8 then 0x87 else 0x01)).2
  let st7 := if cmd = 12 then (xchg_spi bus st6 0xFF).2 else st6
  resPollGo bus 10 st7

/-- Body of send_cmd in sd_card.cpp for a command without the ACMD flag:
for commands other than CMD12, deselect then reselect, failing with 0xFF if
the readiness wait times out; then transmit the frame and poll the response. -/
def send_cmdCore (bus : Bus) (st : BusState) (cmd arg : Nat) : Nat × BusState :=
  if cmd = 12 then cmdFrame bus st cmd arg
  else
    let sel := sd_select bus (deselect bus st)
    if sel.1 then cmdFrame bus sel.2 cmd arg else (0xFF, sel.2)

/-- send_cmd of sd_card.cpp: a command with the high bit set is an
application command, preceded by CMD55 whose error responses (> 1) are
propagated immediately. -/
def send_cmd (bus : Bus) (st : BusState) (cmd arg : Nat) : Nat × BusState :=
  if cmd &&& 0x80 ≠ 0 then
    let r := send_cmdCore bus st 55 0
    if 1 < r.1 then r else send_cmdCore bus r.2 (cmd &&& 0x7F) arg
  else send_cmdCore bus st cmd arg

/-- Power-on dummy-clock loop of sd_init in sd_card.cpp:
for (n = 10; n; n--) xchg_spi(0xFF). -/
def dummyClockLoop (bus : Bus) : Nat → BusState → BusState
  | 0, st => st
  | n + 1, st => dummyClockLoop bus n (xchg_spi bus st 0xFF).2

/-- Prefix of sd_init in sd_card.cpp before send_cmd(CMD0, 0): with the chip
select left high by the GPIO setup and the bus at the slow speed, run the
10-iteration dummy-clock loop from the initial transport state. -/
def sd_initPreamble (bus : Bus) : BusState :=
  dummyClockLoop bus 10 initBusState

/-- Data transmission loop xmit_spi_polling of sd_card.cpp: send btr bytes of
the buffer (modelled as an environment function from index to byte). -/
def xmit_spi_polling (bus : Bus) (buff : Nat → Nat) :
    Nat → Nat → BusState → BusState
  | 0, _, st => st
  | b + 1, j, st => xmit_spi_polling bus buff b (j + 1) (xchg_spi bus st (buff j)).2

theorem xmit_spi_polling_pos (bus : Bus) (buff : Nat → Nat) :
    ∀ b j st, (xmit_spi_polling bus buff b j st).pos = st.pos + b := by
  intro b
  induction b with
  | zero => intro j st; simp [xmit_spi_polling]
  | succ n ih =>
    intro j st
    simp only [xmit_spi_polling, ih, xchg_spi_pos]
    omega

/-- xmit_datablock of sd_card.cpp: wait for readiness (500 ms budget), send
the token; unless it is the stop token 0xFD, send 512 data bytes, two dummy
CRC bytes, then read the data-response byte, accepted only when its low five
bits are 0b00101. -/
def xmit_datablock (bus : Bus) (st : BusState) (buff : Nat → Nat) (token : Nat) :
    Bool × BusState :=
  let w := wait_ready bus st 500
  if w.1 = false then (false, w.2)
  else
    let st1 := (xchg_spi bus w.2 (token % 256)).2
    if token ≠ 0xFD then
      let st2 := xmit_spi_polling bus buff 512 0 st1
      let st3 := (xchg_spi bus st2 0xFF).2
      let st4 := (xchg_spi bus st3 0xFF).2
      let p := xchg_spi bus st4 0xFF
      if p.1 &&& 0x1F ≠ 0x05 then (false, p.2) else (true, p.2)
    else (true, st1)

/-- Card behaviour during sd_init negotiation, one field per response read by
the source: R1 responses to CMD0, CMD8, CMD58, the ACMD41 probe with argument
0 and CMD16; the four trailer bytes read after CMD8; the four OCR bytes read
after CMD58; and, for the retry loops, the response of the i-th retry of
ACMD41 with the HCS bit, of ACMD41 with argument 0, and of CMD1. -/
structure SdCard where
  r0 : Nat
  r8 : Nat
  t0 : Nat
  t1 : Nat
  t2 : Nat
  t3 : Nat
  rA41hcs : Nat → Nat
  r58 : Nat
  ocr0 : Nat
  ocr1 : Nat
  ocr2 : Nat
  ocr3 : Nat
  rA41zero : Nat
  rLoopA41 : Nat → Nat
  rLoopCmd1 : Nat → Nat
  r16 : Nat

/-- Negotiation retry loop of sd_init, e.g.
while (Timer1 && send_cmd(ACMD41, 1UL << 30)); Timer1 is armed to 1000 ms and
decremented by the timer interrupt; it is modelled as fuel consumed one unit
per iteration.  Returns the remaining fuel (0 exactly when the budget ran out
before a zero response). -/
def initLoop (resp : Nat → Nat) : Nat → Nat → Nat
  | 0, _ => 0
  | fuel + 1, i => if resp i = 0 then fuel + 1 else initLoop resp fuel (i + 1)

/-- If some retry before the budget runs out answers 0, the loop exits with
fuel remaining. -/
theorem initLoop_pos (resp : Nat → Nat) :
    ∀ fuel i, (∃ k, k < fuel ∧ resp (i + k) = 0) → initLoop resp fuel i ≠ 0 := by
  intro fuel
  induction fuel with
  | zero => intro i h; exact absurd h.choose_spec.1 (by omega)
  | succ n ih =>
    intro i h
    obtain ⟨k, hk, hr⟩ := h
    by_cases h0 : resp i = 0
    · simp [initLoop, h0]
    · have hk0 : k ≠ 0 := by
        intro he; rw [he] at hr; simp at hr; exact h0 hr
      simp only [initLoop, h0, if_false]
      exact ih (i + 1) ⟨k - 1, by omega, by have : i + 1 + (k - 1) = i + k := by omega
                                            rw [this]; exact hr⟩

/-- Card-type classification computed by the negotiation of sd_init in
sd_card.cpp (the value of the local ty at the CardType = ty assignment).
Timer1 (armed to 1000 ms before CMD8) is the fuel of the retry loops. -/
def sd_initType (c : SdCard) : Nat :=
  if c.r0 = 1 then
    if c.r8 = 1 then
      if c.t2 = 0x01 ∧ c.t3 = 0xAA then
        let rem := initLoop c.rA41hcs 1000 0
        if rem ≠ 0 ∧ c.r58 = 0 then
          if c.ocr0 &&& 0x40 ≠ 0 then CT_SD2 ||| CT_BLOCK else CT_SD2
        else 0
      else 0
    else
      let sd1 := c.rA41zero ≤ 1
      let rem := initLoop (if sd1 then c.rLoopA41 else c.rLoopCmd1) 1000 0
      if rem = 0 ∨ c.r16 ≠ 0 then 0 else if sd1 then CT_SD1 else CT_MMC
  else 0

/-- Negotiation and status update of sd_init in sd_card.cpp, from the CMD0
probe to the final status assignment.  Inputs are the current Stat and
CardType globals and the card behaviour; output is (new Stat, new CardType).
The NODISK early return keeps both unchanged.  On success Stat gets NOINIT
cleared (Stat &= ~STA_NOINIT on the 8-bit DSTATUS, i.e. &&& 0xFE); on failure
Stat is overwritten with STA_NOINIT. -/
def sd_init (stat ct : Nat) (c : SdCard) : Nat × Nat :=
  if stat &&& STA_NODISK ≠ 0 then (stat, ct)
  else if sd_initType c ≠ 0 then (stat &&& 0xFE, sd_initType c)
  else (STA_NOINIT, sd_initType c)

/-- Block-receive loop of sd_read_blocks:
do { if (!rcvr_datablock(buff, 512)) break; buff += 512; } while (--count).
ok i is the success of the i-th rcvr_datablock call; returns the remaining
count (0 exactly when every block was received). -/
def readLoop (ok : Nat → Bool) : Nat → Nat → Nat
  | 0, _ => 0
  | c + 1, i =>
    if ok i = false then c + 1
    else if c = 0 then 0
    else readLoop ok c (i + 1)

/-- sd_read_blocks of sd_card.cpp at command level.  resp cmd arg is the R1
response send_cmd returns, ok i the success of the i-th rcvr_datablock call.
Returns the DRESULT and the list of (command, argument) pairs handed to
send_cmd, in order.  Sector numbers are scaled to byte addresses (32-bit
DWORD arithmetic) unless the card is block-addressed. -/
def sd_read_blocks (stat ct sector count : Nat)
    (resp : Nat → Nat → Nat) (ok : Nat → Bool) : DRESULT × List (Nat × Nat) :=
  if count = 0 then (DRESULT.RES_PARERR, [])
  else if stat &&& STA_NOINIT ≠ 0 then (DRESULT.RES_NOTRDY, [])
  else
    let addr := if ct &&& CT_BLOCK = 0 then sector * 512 % 2 ^ 32 else sector
    if count = 1 then
      if resp 17 addr = 0 then
        if ok 0 then (DRESULT.RES_OK, [(17, addr)])
        else (DRESULT.RES_ERROR, [(17, addr)])
      else (DRESULT.RES_ERROR, [(17, addr)])
    else
      if resp 18 addr = 0 then
        let rem := readLoop ok count 0
        ((if rem = 0 then DRESULT.RES_OK else DRESULT.RES_ERROR),
         [(18, addr), (12, 0)])
      else (DRESULT.RES_ERROR, [(18, addr)])

/-- Block-transmit loop of sd_write_blocks:
do { if (!xmit_datablock(buff, 0xFC)) break; buff += 512; } while (--count).
ok i is the success of the i-th xmit_datablock call; returns the remaining
count and the list of tokens sent by the loop. -/
def writeLoop (ok : Nat → Bool) : Nat → Nat → Nat × List Nat
  | 0, _ => (0, [])
  | c + 1, i =>
    if ok i = false then (c + 1, [0xFC])
    else if c = 0 then (0, [0xFC])
    else
      let p := writeLoop ok c (i + 1)
      (p.1, 0xFC :: p.2)

/-- sd_write_blocks of sd_card.cpp at command level.  resp cmd arg is the R1
response send_cmd returns, ok i the success of the i-th xmit_datablock call
(data blocks and the stop token alike).  Returns the DRESULT, the list of
(command, argument) pairs handed to send_cmd (ACMD23 recorded as 0x80+23 =
151, as in the source enum), and the list of tokens handed to
xmit_datablock. -/
def sd_write_blocks (stat ct sector count : Nat)
    (resp : Nat → Nat → Nat) (ok : Nat → Bool) :
    DRESULT × List (Nat × Nat) × List Nat :=
  if count = 0 then (DRESULT.RES_PARERR, [], [])
  else if stat &&& STA_NOINIT ≠ 0 then (DRESULT.RES_NOTRDY, [], [])
  else if stat &&& STA_PROTECT ≠ 0 then (DRESULT.RES_WRPRT, [], [])
  else
    let addr := if ct &&& CT_BLOCK = 0 then sector * 512 % 2 ^ 32 else sector
    if count = 1 then
      if resp 24 addr = 0 then
        if ok 0 then (DRESULT.RES_OK, [(24, addr)], [0xFE])
        else (DRESULT.RES_ERROR, [(24, addr)], [0xFE])
      else (DRESULT.RES_ERROR, [(24, addr)], [])
    else
      let pre : List (Nat × Nat) := if ct &&& CT_SDC ≠ 0 then [(151, count)] else []
      if resp 25 addr = 0 then
        let lp := writeLoop ok count 0
        let rem := if ok lp.2.length then lp.1 else 1
        ((if rem = 0 then DRESULT.RES_OK else DRESULT.RES_ERROR),
         pre ++ [(25, addr)], lp.2 ++ [0xFD])
      else (DRESULT.RES_ERROR, pre ++ [(25, addr)], [])

/-- DMA transfer status of sd_spi_hal.h (enum class HalDmaStatus). -/
inductive HalDmaStatus where
  | IDLE
  | BUSY
  | SUCCESS
  | ERROR
deriving DecidableEq, Repr

/-- Effect of hal_spi_dma_write_start in sd_spi_hal.cpp on g_dma_status: the
function's first statement assigns BUSY; the rest is DMA register setup that
does not touch the cell. -/
def hal_spi_dma_write_start (_ : HalDmaStatus) : HalDmaStatus :=
  HalDmaStatus.BUSY

/-- Effect of hal_spi_dma_read_start in sd_spi_hal.cpp on g_dma_status: the
function's first statement assigns BUSY; the rest is DMA register setup that
does not touch the cell. -/
def hal_spi_dma_read_start (_ : HalDmaStatus) : HalDmaStatus :=
  HalDmaStatus.BUSY

/-- Effect of DMA0_Channel3_IRQHandler__ (RX completion) in sd_spi_hal.cpp on
g_dma_status: when the full-transfer flag is pending it tears the channel
down and assigns SUCCESS, otherwise it leaves the cell alone. -/
def dma0_channel3_irq (ftf : Bool) (s : HalDmaStatus) : HalDmaStatus :=
  if ftf then HalDmaStatus.SUCCESS else s

/-- Effect of DMA0_Channel4_IRQHandler__ (TX completion) in sd_spi_hal.cpp on
g_dma_status: when the full-transfer flag is pending it tears the channel
down and assigns SUCCESS, otherwise it leaves the cell alone. -/
def dma0_channel4_irq (ftf : Bool) (s : HalDmaStatus) : HalDmaStatus :=
  if ftf then HalDmaStatus.SUCCESS else s

/-- hal_dma_get_status of sd_spi_hal.cpp: returns g_dma_status (first
component) and leaves the cell itself (second component) untouched; the debug
printf reads hardware registers only. -/
def hal_dma_get_status (s : HalDmaStatus) : HalDmaStatus × HalDmaStatus :=
  (s, s)

/-- One step of the system acting on g_dma_status: either task-context
initiator, either completion interrupt (with its pending-flag value), or the
task-context poll. -/
inductive DmaOp where
  | startRead
  | startWrite
  | irqCh3 (ftf : Bool)
  | irqCh4 (ftf : Bool)
  | poll
deriving DecidableEq, Repr

/-- Interpretation of one DmaOp on the g_dma_status cell. -/
def dmaStep (op : DmaOp) (s : HalDmaStatus) : HalDmaStatus :=
  match op with
  | DmaOp.startRead => hal_spi_dma_read_start s
  | DmaOp.startWrite => hal_spi_dma_write_start s
  | DmaOp.irqCh3 f => dma0_channel3_irq f s
  | DmaOp.irqCh4 f => dma0_channel4_irq f s
  | DmaOp.poll => (hal_dma_get_status s).2

/-- Run a sequence of operations on the g_dma_status cell. -/
def dmaRun (ops : List DmaOp) (s : HalDmaStatus) : HalDmaStatus :=
  ops.foldl (fun a op => dmaStep op a) s

/-- TIMER3_IRQHandler of sd_card.cpp acting on (Timer1, Timer2): when the
update-interrupt flag is pending, each counter is decremented only if it is
nonzero; with the flag clear nothing happens. -/
def TIMER3_IRQHandler (flag : Bool) (t1 t2 : Nat) : Nat × Nat :=
  if flag then
    ((if t1 ≠ 0 then t1 - 1 else t1), (if t2 ≠ 0 then t2 - 1 else t2))
  else (t1, t2)

/-- TIMER3_IRQHandler of sd_spi_hal.cpp acting on Timeout_ms: when the
update-interrupt flag is pending, the counter is decremented only if it is
positive. -/
def halTimerTick (flag : Bool) (t : Nat) : Nat :=
  if flag then (if 0 < t then t - 1 else t) else t

/-- A bus on which the card keeps the line at the idle level 0xFF. -/
def busFF : Bus := ⟨fun _ => 0xFF⟩

/-- C6 counterexample: the power-on preamble of sd_init clocks out exactly 10
dummy bytes (the source loop for (n = 10; n; n--) xchg_spi(0xFF)), so the
claim that at least 74 dummy 0xFF bytes are clocked out before CMD0 is false:
10 < 74. -/
theorem poweron_dummy_clocking_cex :
    ¬ 74 ≤ (sd_initPreamble busFF).sent.length := by decide

/-- C6 amended: at the start of initialization, with chip select deasserted
(high) after the slow bus speed is set, sd_init clocks out exactly 10 dummy
0xFF bytes — 80 clock cycles, at least the 74 clock cycles the SD SPI
specification requires — before sending CMD0. -/
theorem poweron_dummy_clocking (bus : Bus) :
    (sd_initPreamble bus).sent = List.replicate 10 (0xFF, true) ∧
    (sd_initPreamble bus).pos = 10 ∧
    74 ≤ 8 * (sd_initPreamble bus).sent.length := by
  refine ⟨rfl, rfl, ?_⟩
  have h : (sd_initPreamble bus).sent = List.replicate 10 (0xFF, true) := rfl
  rw [h]
  decide

/-- C8: one step of each periodic timer interrupt handler (sd_card.cpp's,
acting on Timer1 and Timer2, and sd_spi_hal.cpp's, acting on Timeout_ms)
decrements a positive counter by exactly 1, leaves a zero counter at 0, never
moves a counter upward, and does nothing when the update flag is clear — so
the countdown values never underflow below zero. -/
theorem timer_counters_no_underflow (flag : Bool) (t1 t2 : Nat) :
    (TIMER3_IRQHandler true (t1 + 1) t2).1 = t1 ∧
    (TIMER3_IRQHandler true 0 t2).1 = 0 ∧
    (TIMER3_IRQHandler true t1 (t2 + 1)).2 = t2 ∧
    (TIMER3_IRQHandler true t1 0).2 = 0 ∧
    TIMER3_IRQHandler false t1 t2 = (t1, t2) ∧
    (TIMER3_IRQHandler flag t1 t2).1 ≤ t1 ∧
    (TIMER3_IRQHandler flag t1 t2).2 ≤ t2 ∧
    halTimerTick true (t1 + 1) = t1 ∧
    halTimerTick true 0 = 0 ∧
    halTimerTick flag t1 ≤ t1 := by
  have e1 : ∀ t : Nat, (if t ≠ 0 then t - 1 else t) = t - 1 := by
    intro t; split <;> omega
  have e2 : ∀ t : Nat, (if 0 < t then t - 1 else t) = t - 1 := by
    intro t; split <;> omega
  cases flag <;> simp [TIMER3_IRQHandler, halTimerTick, e1, e2] <;> omega

/-- C7 counterexample: the DMA transfer initiators do write the shared
g_dma_status cell — hal_spi_dma_write_start and hal_spi_dma_read_start both
begin by assigning HalDmaStatus::BUSY, so on the Idle cell they do not leave
it unchanged. -/
theorem dma_status_single_writer_cex :
    hal_spi_dma_write_start HalDmaStatus.IDLE ≠ HalDmaStatus.IDLE ∧
    hal_spi_dma_read_start HalDmaStatus.IDLE ≠ HalDmaStatus.IDLE := by decide

/-- C7 amended: the shared g_dma_status cell is written by the task-context
transfer initiators (which set it to Busy on entry) and by the DMA-completion
interrupt handlers (which set it to Success when their full-transfer flag is
pending and otherwise leave it unchanged); the task-context poller
hal_dma_get_status only reads it and leaves it unchanged. -/
theorem dma_status_writers (s : HalDmaStatus) (f : Bool) :
    hal_spi_dma_write_start s = HalDmaStatus.BUSY ∧
    hal_spi_dma_read_start s = HalDmaStatus.BUSY ∧
    (dma0_channel3_irq f s = HalDmaStatus.SUCCESS ∨ dma0_channel3_irq f s = s) ∧
    (dma0_channel4_irq f s = HalDmaStatus.SUCCESS ∨ dma0_channel4_irq f s = s) ∧
    (hal_dma_get_status s).2 = s ∧
    (hal_dma_get_status s).1 = s := by
  cases f <;>
    simp [hal_spi_dma_write_start, hal_spi_dma_read_start,
      dma0_channel3_irq, dma0_channel4_irq, hal_dma_get_status]

/-- Every single system step on g_dma_status preserves "not Error": the
initiators write Busy, the handlers write Success or nothing, the poll writes
nothing. -/
theorem dmaStep_ne_error (op : DmaOp) (s : HalDmaStatus)
    (h : s ≠ HalDmaStatus.ERROR) : dmaStep op s ≠ HalDmaStatus.ERROR := by
  cases op with
  | startRead => simp [dmaStep, hal_spi_dma_read_start]
  | startWrite => simp [dmaStep, hal_spi_dma_write_start]
  | irqCh3 f => cases f <;> simpa [dmaStep, dma0_channel3_irq] using h
  | irqCh4 f => cases f <;> simpa [dmaStep, dma0_channel4_irq] using h
  | poll => simpa [dmaStep, hal_dma_get_status] using h

/-- C9: starting from Idle, every operation that writes g_dma_status writes
either Busy (the transfer initiators) or Success (the completion interrupt
handlers), so after any sequence of initiator, interrupt-handler and poll
steps, hal_dma_get_status never returns HalDmaStatus::ERROR. -/
theorem dma_error_unreachable (ops : List DmaOp) :
    (hal_dma_get_status (dmaRun ops HalDmaStatus.IDLE)).1 ≠ HalDmaStatus.ERROR := by
  suffices h : ∀ (l : List DmaOp) (s : HalDmaStatus),
      s ≠ HalDmaStatus.ERROR → dmaRun l s ≠ HalDmaStatus.ERROR by
    exact h ops HalDmaStatus.IDLE (by simp)
  intro l
  induction l with
  | nil => intro s hs; simpa [dmaRun] using hs
  | cons op rest ih =>
    intro s hs
    have hstep : dmaRun (op :: rest) s = dmaRun rest (dmaStep op s) := rfl
    rw [hstep]
    exact ih (dmaStep op s) (dmaStep_ne_error op s hs)

/-- A card that answers nothing: CMD0 is not acknowledged with 0x01, so
negotiation fails and the classification ends with type 0. -/
def cardFail : SdCard :=
  ⟨0, 0, 0, 0, 0, 0, fun _ => 1, 0, 0, 0, 0, 0, 2, fun _ => 1, fun _ => 1, 1⟩

/-- C10: with no-medium not flagged (the only way to reach classification),
when the card-type classification ends with type 0, sd_init assigns the
status the exact value STA_NOINIT, clearing any previously set NoMedium or
WriteProtected bit; on success it clears only the NotInitialized bit and
preserves the NoMedium and WriteProtected bits. -/
theorem init_failure_overwrites_status (stat ct : Nat) (c : SdCard)
    (hnd : stat &&& STA_NODISK = 0) :
    ((sd_init stat ct c).2 = 0 →
       (sd_init stat ct c).1 = STA_NOINIT ∧
       (sd_init stat ct c).1 &&& STA_NODISK = 0 ∧
       (sd_init stat ct c).1 &&& STA_PROTECT = 0) ∧
    ((sd_init stat ct c).2 ≠ 0 →
       (sd_init stat ct c).1 &&& STA_NOINIT = 0 ∧
       (sd_init stat ct c).1 &&& STA_NODISK = stat &&& STA_NODISK ∧
       (sd_init stat ct c).1 &&& STA_PROTECT = stat &&& STA_PROTECT) := by
  have hnd' : ¬ stat &&& STA_NODISK ≠ 0 := by simp [hnd]
  by_cases hty : sd_initType c = 0
  · constructor
    · intro _
      have h1 : sd_init stat ct c = (STA_NOINIT, 0) := by
        simp [sd_init, hnd', hty]
      rw [h1]
      exact ⟨rfl, by decide, by decide⟩
    · intro h2
      exact absurd (by simp [sd_init, hnd', hty]) h2
  · constructor
    · intro h2
      exact absurd (by simpa [sd_init, hnd', hty] using h2) hty
    · intro _
      have h1 : (sd_init stat ct c).1 = stat &&& 0xFE := by
        simp [sd_init, hnd', hty]
      have c1 : (0xFE &&& STA_NOINIT : Nat) = 0 := by decide
      have c2 : (0xFE &&& STA_NODISK : Nat) = STA_NODISK := by decide
      have c4 : (0xFE &&& STA_PROTECT : Nat) = STA_PROTECT := by decide
      refine ⟨?_, ?_, ?_⟩
      · rw [h1, Nat.and_assoc, c1, Nat.and_zero]
      · rw [h1, Nat.and_assoc, c2]
      · rw [h1, Nat.and_assoc, c4]

/-- C10 witness: with status NotInitialized|WriteProtected (5) and a card
that fails negotiation, sd_init overwrites the status with exactly
STA_NOINIT, clearing the WriteProtected bit. -/
theorem init_failure_overwrites_status_witness :
    (sd_init 5 0 cardFail).1 = STA_NOINIT ∧
    (sd_init 5 0 cardFail).1 &&& STA_NODISK = 0 ∧
    (sd_init 5 0 cardFail).1 &&& STA_PROTECT = 0 :=
  (init_failure_overwrites_status 5 0 cardFail (by decide)).1 (by decide)

/-- C1: for the SD v2 response sequence — CMD0 answered 0x01, CMD8 answered
0x01 with trailer bytes 00 00 01 AA, ACMD41 with the HCS bit reporting ready
before the 1-second budget (here: before 1000 retry iterations), CMD58
answered 0 — sd_init classifies the card as CT_SD2|CT_BLOCK and clears the
NotInitialized status bit when bit 6 of the first OCR byte is set, and as
CT_SD2 alone (still clearing NotInitialized) when it is clear. -/
theorem negotiation_determinism (stat ct : Nat) (c : SdCard)
    (hnd : stat &&& STA_NODISK = 0)
    (h0 : c.r0 = 1) (h8 : c.r8 = 1)
    (ht0 : c.t0 = 0) (ht1 : c.t1 = 0) (ht2 : c.t2 = 0x01) (ht3 : c.t3 = 0xAA)
    (hready : ∃ k, k < 1000 ∧ c.rA41hcs k = 0)
    (h58 : c.r58 = 0) :
    (c.ocr0 &&& 0x40 ≠ 0 →
       (sd_init stat ct c).2 = (CT_SD2 ||| CT_BLOCK) ∧
       (sd_init stat ct c).1 &&& STA_NOINIT = 0) ∧
    (c.ocr0 &&& 0x40 = 0 →
       (sd_init stat ct c).2 = CT_SD2 ∧
       (sd_init stat ct c).1 &&& STA_NOINIT = 0) := by
  have hrem : initLoop c.rA41hcs 1000 0 ≠ 0 := by
    refine initLoop_pos c.rA41hcs 1000 0 ?_
    obtain ⟨k, hk, hz⟩ := hready
    exact ⟨k, hk, by simpa using hz⟩
  have hnd' : ¬ stat &&& STA_NODISK ≠ 0 := by simp [hnd]
  have hclear : stat &&& 0xFE &&& STA_NOINIT = 0 := by
    rw [Nat.and_assoc]
    have : (0xFE &&& STA_NOINIT : Nat) = 0 := by decide
    rw [this, Nat.and_zero]
  constructor
  · intro hb
    have hty : sd_initType c = CT_SD2 ||| CT_BLOCK := by
      simp [sd_initType, h0, h8, ht2, ht3, h58, hrem, hb]
    have hne : (CT_SD2 ||| CT_BLOCK : Nat) ≠ 0 := by decide
    have hval : sd_init stat ct c = (stat &&& 0xFE, CT_SD2 ||| CT_BLOCK) := by
      unfold sd_init
      rw [if_neg hnd', hty, if_pos hne]
    rw [hval]
    exact ⟨rfl, hclear⟩
  · intro hb
    have hty : sd_initType c = CT_SD2 := by
      simp [sd_initType, h0, h8, ht2, ht3, h58, hrem, hb]
    have hne : (CT_SD2 : Nat) ≠ 0 := by decide
    have hval : sd_init stat ct c = (stat &&& 0xFE, CT_SD2) := by
      unfold sd_init
      rw [if_neg hnd', hty, if_pos hne]
    rw [hval]
    exact ⟨rfl, hclear⟩

/-- An SD v2 card that acknowledges CMD0 and CMD8, echoes the 0x1AA pattern,
reports ready on the first ACMD41, accepts CMD58 and returns an OCR whose
first byte has bit 6 (CCS) set. -/
def cardV2Block : SdCard :=
  ⟨1, 1, 0, 0, 0x01, 0xAA, fun _ => 0, 0, 0x40, 0, 0, 0, 1, fun _ => 0,
   fun _ => 0, 0⟩

/-- C1 witness: on the concrete SD v2 block-addressed card, starting from
status NotInitialized, sd_init yields card type 12 = CT_SD2|CT_BLOCK and a
status with the NotInitialized bit clear. -/
theorem negotiation_determinism_witness :
    (sd_init 1 0 cardV2Block).2 = (CT_SD2 ||| CT_BLOCK) ∧
    (sd_init 1 0 cardV2Block).1 &&& STA_NOINIT = 0 :=
  (negotiation_determinism 1 0 cardV2Block (by decide) rfl rfl rfl rfl rfl rfl
    ⟨0, by decide, rfl⟩ rfl).1 (by decide)

/-- Environment in which every command gets R1 response 0. -/
def respZero : Nat → Nat → Nat := fun _ _ => 0

/-- Environment in which every data-block transfer succeeds. -/
def okTrue : Nat → Bool := fun _ => true

/-- C3: a zero count makes sd_read_blocks and sd_write_blocks return
RES_PARERR; otherwise a status with NotInitialized set makes them return
RES_NOTRDY; otherwise a status with WriteProtected set makes sd_write_blocks
return RES_WRPRT — and in each case the operation returns with no command
issued and no data token sent (the source writes no driver state on these
paths). -/
theorem precondition_gating (stat ct sector count : Nat)
    (resp : Nat → Nat → Nat) (ok : Nat → Bool) :
    (sd_read_blocks stat ct sector 0 resp ok = (DRESULT.RES_PARERR, []) ∧
     sd_write_blocks stat ct sector 0 resp ok = (DRESULT.RES_PARERR, [], [])) ∧
    (stat &&& STA_NOINIT ≠ 0 → count ≠ 0 →
       sd_read_blocks stat ct sector count resp ok = (DRESULT.RES_NOTRDY, []) ∧
       sd_write_blocks stat ct sector count resp ok =
         (DRESULT.RES_NOTRDY, [], [])) ∧
    (stat &&& STA_NOINIT = 0 → stat &&& STA_PROTECT ≠ 0 → count ≠ 0 →
       sd_write_blocks stat ct sector count resp ok =
         (DRESULT.RES_WRPRT, [], [])) := by
  refine ⟨⟨?_, ?_⟩, fun hni hc => ⟨?_, ?_⟩, fun hni hwp hc => ?_⟩ <;>
    simp_all [sd_read_blocks, sd_write_blocks]

/-- C3 witness: with count 0 the read path reports RES_PARERR, and with the
NotInitialized bit set and a nonzero count both paths report RES_NOTRDY. -/
theorem precondition_gating_witness :
    sd_read_blocks 0 0 9 0 respZero okTrue = (DRESULT.RES_PARERR, []) ∧
    sd_read_blocks 1 0 9 3 respZero okTrue = (DRESULT.RES_NOTRDY, []) ∧
    sd_write_blocks 1 0 9 3 respZero okTrue = (DRESULT.RES_NOTRDY, [], []) :=
  ⟨(precondition_gating 0 0 9 0 respZero okTrue).1.1,
   ((precondition_gating 1 0 9 3 respZero okTrue).2.1 (by decide) (by decide)).1,
   ((precondition_gating 1 0 9 3 respZero okTrue).2.1 (by decide) (by decide)).2⟩

/-- Every run of the transmit loop of sd_write_blocks sends only the
multi-block continuation token 0xFC. -/
theorem writeLoop_tokens (ok : Nat → Bool) :
    ∀ c i, ∃ m, (writeLoop ok c i).2 = List.replicate m 0xFC := by
  intro c
  induction c with
  | zero => intro i; exact ⟨0, rfl⟩
  | succ n ih =>
    intro i
    by_cases h : ok i = false
    · exact ⟨1, by simp [writeLoop, h]⟩
    · by_cases hn : n = 0
      · exact ⟨1, by simp [writeLoop, h, hn]⟩
      · obtain ⟨k, hk⟩ := ih (i + 1)
        refine ⟨k + 1, ?_⟩
        simp [writeLoop, h, hn, hk, List.replicate_succ]

/-- C5: past the precondition gate, the address argument of the data command
is sector*512 when the card type lacks CT_BLOCK and sector itself otherwise
(sector small enough that the 32-bit multiply does not wrap, as on any
byte-addressed card); count 1 uses CMD17 (read) or CMD24 (write); count ≥ 2
uses CMD18 bracketed by CMD12 (read, once CMD18 is accepted) or CMD25
terminated by the 0xFD stop token (write, once CMD25 is accepted), with
ACMD23 (= 0x80+23) carrying the block count sent before CMD25 exactly when
the card type includes CT_SD1 or CT_SD2. -/
theorem sector_addressing (stat ct sector count : Nat)
    (resp : Nat → Nat → Nat) (ok : Nat → Bool)
    (hst : stat &&& STA_NOINIT = 0) (hwp : stat &&& STA_PROTECT = 0)
    (hsec : sector < 2 ^ 23) :
    (sd_read_blocks stat ct sector 1 resp ok).2 =
        [(17, if ct &&& CT_BLOCK = 0 then sector * 512 else sector)] ∧
    (sd_write_blocks stat ct sector 1 resp ok).2.1 =
        [(24, if ct &&& CT_BLOCK = 0 then sector * 512 else sector)] ∧
    (2 ≤ count →
       resp 18 (if ct &&& CT_BLOCK = 0 then sector * 512 else sector) = 0 →
       (sd_read_blocks stat ct sector count resp ok).2 =
         [(18, if ct &&& CT_BLOCK = 0 then sector * 512 else sector), (12, 0)]) ∧
    (2 ≤ count →
       (sd_write_blocks stat ct sector count resp ok).2.1 =
         (if ct &&& CT_SDC = 0 then [] else [(151, count)]) ++
           [(25, if ct &&& CT_BLOCK = 0 then sector * 512 else sector)]) ∧
    (2 ≤ count →
       resp 25 (if ct &&& CT_BLOCK = 0 then sector * 512 else sector) = 0 →
       ∃ m, (sd_write_blocks stat ct sector count resp ok).2.2 =
         List.replicate m 0xFC ++ [0xFD]) := by
  have hmod : sector * 512 % 2 ^ 32 = sector * 512 :=
    Nat.mod_eq_of_lt (by omega)
  have haddr : (if ct &&& CT_BLOCK = 0 then sector * 512 % 2 ^ 32 else sector) =
      (if ct &&& CT_BLOCK = 0 then sector * 512 else sector) := by
    rw [hmod]
  refine ⟨?_, ?_, fun h2 hresp => ?_, fun h2 => ?_, fun h2 hresp => ?_⟩
  · simp only [sd_read_blocks, hst]
    rw [haddr]
    split_ifs <;> simp_all
  · simp only [sd_write_blocks, hst, hwp]
    rw [haddr]
    split_ifs <;> simp_all
  · have hc0 : count ≠ 0 := by omega
    have hc1 : count ≠ 1 := by omega
    norm_num at haddr
    simp [sd_read_blocks, hst, hc0, hc1, haddr, hresp]
  · have hc0 : count ≠ 0 := by omega
    have hc1 : count ≠ 1 := by omega
    simp only [sd_write_blocks, hst, hwp]
    rw [haddr]
    simp only [hc0, hc1, if_false, if_neg hc0, if_neg hc1]
    split_ifs with hresp25 hsdc hsdc <;> simp_all [CT_SDC]
  · have hc0 : count ≠ 0 := by omega
    have hc1 : count ≠ 1 := by omega
    norm_num at haddr
    obtain ⟨m, hm⟩ := writeLoop_tokens ok count 0
    refine ⟨m, ?_⟩
    simp [sd_write_blocks, hst, hwp, hc0, hc1, haddr, hresp, hm]

/-- C5 witness: a non-block-addressed card reading three sectors starting at
sector 2 issues CMD18 with byte address 1024 followed by CMD12. -/
theorem sector_addressing_witness :
    (sd_read_blocks 0 0 2 3 respZero okTrue).2 = [(18, 1024), (12, 0)] :=
  (sector_addressing 0 0 2 3 respZero okTrue (by decide) (by decide)
    (by decide)).2.2.1 (by decide) (by decide)

/-- When the first failure of the transmit loop of sd_write_blocks happens at
block k (every earlier block accepted, block k rejected) before the count is
exhausted, the loop stops having sent k+1 continuation tokens and leaves a
positive remaining count of c - k. -/
theorem writeLoop_break (ok : Nat → Bool) :
    ∀ k c i, (∀ j, j < k → ok (i + j) = true) → ok (i + k) = false → k < c →
      writeLoop ok c i = (c - k, List.replicate (k + 1) 0xFC) := by
  intro k
  induction k with
  | zero =>
    intro c i hpre hfail hlt
    have h0 : ok i = false := by simpa using hfail
    cases c with
    | zero => omega
    | succ c' =>
      by_cases hc : c' = 0 <;> simp [writeLoop, h0, hc]
  | succ k ih =>
    intro c i hpre hfail hlt
    have h0 : ok i = true := hpre 0 (by omega)
    have h0' : ¬ ok i = false := by simp [h0]
    cases c with
    | zero => omega
    | succ c' =>
      have hc' : c' ≠ 0 := by omega
      have hrec : writeLoop ok c' (i + 1) =
          (c' - k, List.replicate (k + 1) 0xFC) := by
        refine ih c' (i + 1) ?_ ?_ (by omega)
        · intro j hj
          have := hpre (j + 1) (by omega)
          simpa [Nat.add_assoc, Nat.add_comm 1 j] using this
        · have : i + 1 + k = i + (k + 1) := by omega
          rw [this]; exact hfail
      have hgoal : writeLoop ok (c' + 1) i =
          ((writeLoop ok c' (i + 1)).1, 0xFC :: (writeLoop ok c' (i + 1)).2) := by
        simp [writeLoop, h0', hc']
      rw [hgoal, hrec]
      simp [List.replicate_succ]

/-- C4: a data-response byte whose low five bits differ from 0b00101 makes
xmit_datablock reject the block (first conjunct: in the byte-level model,
with the card ready at once, the response byte read 516 exchanges after the
readiness byte — token, 512 data bytes, two CRC bytes — fails the mask and
the call returns false); and a rejected block makes sd_write_blocks abandon
the remaining blocks — exactly k+1 data tokens are sent when block k is the
first rejected — and return RES_ERROR, for a single-block write (second
conjunct) and a multi-block write (third conjunct). -/
theorem write_rejection (bus : Bus) (st : BusState) (buff : Nat → Nat)
    (token : Nat) (stat ct sector count k : Nat)
    (resp : Nat → Nat → Nat) (ok : Nat → Bool) :
    (token ≠ 0xFD → bus.rx st.pos % 256 = 0xFF →
       bus.rx (st.pos + 516) % 256 &&& 0x1F ≠ 0x05 →
       (xmit_datablock bus st buff token).1 = false) ∧
    (stat &&& STA_NOINIT = 0 → stat &&& STA_PROTECT = 0 → ok 0 = false →
       (sd_write_blocks stat ct sector 1 resp ok).1 = DRESULT.RES_ERROR) ∧
    (stat &&& STA_NOINIT = 0 → stat &&& STA_PROTECT = 0 → 2 ≤ count →
       k < count → (∀ j, j < k → ok j = true) → ok k = false →
       resp 25 (if ct &&& CT_BLOCK = 0 then sector * 512 % 2 ^ 32 else sector) = 0 →
       (sd_write_blocks stat ct sector count resp ok).1 = DRESULT.RES_ERROR ∧
       (sd_write_blocks stat ct sector count resp ok).2.2 =
         List.replicate (k + 1) 0xFC ++ [0xFD]) := by
  refine ⟨fun htok hrdy hresp => ?_, fun hni hwp hok => ?_,
    fun hni hwp h2 hk hpre hfail hresp => ?_⟩
  · have hw : wait_ready bus st 500 = (true, (xchg_spi bus st 0xFF).2) :=
      waitReadyGo_ready bus st hrdy 500
    have hpos : (xmit_spi_polling bus buff 512 0
        (xchg_spi bus (xchg_spi bus st 0xFF).2 (token % 256)).2).pos =
        st.pos + 514 := by
      rw [xmit_spi_polling_pos]
      simp only [xchg_spi_pos]
    simp only [xmit_datablock, hw]
    simp only [Bool.true_eq_false, if_false, if_neg (by simp : ¬ true = false)]
    rw [if_pos htok]
    have hfinal : bus.rx ((xmit_spi_polling bus buff 512 0
        (xchg_spi bus (xchg_spi bus st 0xFF).2 (token % 256)).2).pos + 1 + 1)
        % 256 &&& 0x1F ≠ 0x05 := by
      rw [hpos]
      have : st.pos + 514 + 1 + 1 = st.pos + 516 := by omega
      rw [this]
      exact hresp
    simp only [xchg_spi_fst, xchg_spi_pos]
    rw [if_pos hfinal]
  · simp [sd_write_blocks, hni, hwp, hok]
    split <;> split <;> rfl
  · have hc0 : count ≠ 0 := by omega
    have hc1 : count ≠ 1 := by omega
    have hloop : writeLoop ok count 0 = (count - k, List.replicate (k + 1) 0xFC) := by
      refine writeLoop_break ok k count 0 ?_ (by simpa using hfail) hk
      intro j hj
      simpa using hpre j hj
    have hne2 : (if ok (k + 1) = true then count - k else 1) ≠ 0 := by
      split <;> omega
    norm_num at hresp
    constructor
    · simp [sd_write_blocks, hni, hwp, hc0, hc1, hresp, hloop, hne2]
    · simp [sd_write_blocks, hni, hwp, hc0, hc1, hresp, hloop]

/-- A bus that is ready at once (first byte 0xFF) and then answers every
exchange with 0x00 — in particular the data-response byte after a block is
0x00, whose low five bits are not 0b00101. -/
def busReject : Bus := ⟨fun i => if i = 0 then 0xFF else 0⟩

/-- Environment in which every data-block transfer is rejected. -/
def okFalse : Nat → Bool := fun _ => false

/-- C4 witness: on the concrete rejecting bus the byte-level xmit_datablock
returns false, and a three-block write whose first block is rejected returns
RES_ERROR having sent one continuation token and the stop token. -/
theorem write_rejection_witness :
    (xmit_datablock busReject initBusState (fun _ => 0) 0xFE).1 = false ∧
    (sd_write_blocks 0 0 0 3 respZero okFalse).1 = DRESULT.RES_ERROR ∧
    (sd_write_blocks 0 0 0 3 respZero okFalse).2.2 =
      List.replicate 1 0xFC ++ [0xFD] := by
  have h := write_rejection busReject initBusState (fun _ => 0) 0xFE 0 0 0 3 0
    respZero okFalse
  refine ⟨h.1 (by decide) (by decide) (by decide), ?_, ?_⟩
  · exact (h.2.2 (by decide) (by decide) (by decide) (by decide)
      (fun j hj => absurd hj (by omega)) (by decide) (by decide)).1
  · exact (h.2.2 (by decide) (by decide) (by decide) (by decide)
      (fun j hj => absurd hj (by omega)) (by decide) (by decide)).2

/-- Trace of the response-poll loop of send_cmd: for a positive budget n+1 it
performs k exchanges for some 1 ≤ k ≤ n+1, each transmitting the filler 0xFF,
returns the k-th received byte, and either that byte has the high bit clear
or the budget was exhausted (k = n+1) and the last polled byte is returned. -/
theorem resPollGo_trace (bus : Bus) :
    ∀ n st, ∃ k, 1 ≤ k ∧ k ≤ n + 1 ∧
      (resPollGo bus (n + 1) st).2.sent =
        st.sent ++ List.replicate k (0xFF, st.cs) ∧
      (resPollGo bus (n + 1) st).2.pos = st.pos + k ∧
      (resPollGo bus (n + 1) st).2.cs = st.cs ∧
      (resPollGo bus (n + 1) st).1 = bus.rx (st.pos + (k - 1)) % 256 ∧
      ((resPollGo bus (n + 1) st).1 &&& 0x80 = 0 ∨ k = n + 1) := by
  intro n
  induction n with
  | zero =>
    intro st
    have h1 : resPollGo bus 1 st = xchg_spi bus st 0xFF := by
      simp [resPollGo]
    refine ⟨1, le_refl 1, le_refl 1, ?_, ?_, ?_, ?_, Or.inr rfl⟩ <;>
      simp [h1, xchg_spi]
  | succ n ih =>
    intro st
    by_cases h : bus.rx st.pos % 256 &&& 0x80 = 0
    · have hstep : resPollGo bus (n + 1 + 1) st = xchg_spi bus st 0xFF := by
        simp [resPollGo, h]
      refine ⟨1, le_refl 1, by omega, ?_, ?_, ?_, ?_, Or.inl ?_⟩ <;>
        simp [hstep, xchg_spi, h]
    · have hstep : resPollGo bus (n + 1 + 1) st =
          resPollGo bus (n + 1) (xchg_spi bus st 0xFF).2 := by
        simp [resPollGo, h]
      obtain ⟨k, hk1, hkn, hsent, hpos, hcs, hres, hlast⟩ :=
        ih (xchg_spi bus st 0xFF).2
      refine ⟨k + 1, by omega, by omega, ?_, ?_, ?_, ?_, ?_⟩
      · rw [hstep, hsent]
        simp [xchg_spi, List.replicate_succ]
      · rw [hstep, hpos]
        simp [xchg_spi]
        omega
      · rw [hstep, hcs]
        simp [xchg_spi]
      · rw [hstep, hres]
        simp only [xchg_spi_pos]
        have harith : st.pos + 1 + (k - 1) = st.pos + (k + 1 - 1) := by omega
        rw [harith]
      · rcases hlast with hl | hl
        · exact Or.inl (by rw [hstep]; exact hl)
        · exact Or.inr (by omega)

/-- C2: send_cmd framing.  First conjunct: for an ordinary command (high bit
clear, not CMD12) on a bus that reports ready at the reselect (the byte of
exchange 1 is 0xFF), the transmitted trace is one deselect filler byte (CS
high), one readiness filler byte (CS low), then the 6-byte frame — 0x40|c,
the four argument bytes most-significant first, and the CRC byte 0x95 for
CMD0, 0x87 for CMD8 and 0x01 otherwise — followed by k ≤ 10 response polls
transmitting 0xFF; the returned byte is the k-th polled byte, and either its
high bit is clear or the 10-exchange budget was exhausted and the last polled
byte is returned.  Second conjunct: a command with the high bit set is
preceded by CMD55, whose response is returned immediately when greater
than 1.  Third conjunct: otherwise the command is sent (with the high bit
masked off) from the post-CMD55 state. -/
theorem send_cmd_framing (bus : Bus) (c arg : Nat) (hc256 : c < 256)
    (harg : arg < 2 ^ 32) :
    (c &&& 0x80 = 0 → c ≠ 12 → bus.rx 1 % 256 = 0xFF →
       ∃ k, 1 ≤ k ∧ k ≤ 10 ∧
         (send_cmd bus initBusState c arg).2.sent =
           [((0xFF : Nat), true), ((0xFF : Nat), false),
            ((0x40 ||| c) % 256, false),
            ((arg >>> 24) % 256, false), ((arg >>> 16) % 256, false),
            ((arg >>> 8) % 256, false), (arg % 256, false),
            ((if c = 0 then 0x95 else if c = 8 then 0x87 else 0x01) % 256,
             false)] ++
           List.replicate k (0xFF, false) ∧
         (send_cmd bus initBusState c arg).1 = bus.rx (7 + k) % 256 ∧
         ((send_cmd bus initBusState c arg).1 &&& 0x80 = 0 ∨ k = 10)) ∧
    (c &&& 0x80 ≠ 0 → 1 < (send_cmd bus initBusState 55 0).1 →
       send_cmd bus initBusState c arg = send_cmd bus initBusState 55 0) ∧
    (c &&& 0x80 ≠ 0 → (send_cmd bus initBusState 55 0).1 ≤ 1 →
       send_cmd bus initBusState c arg =
         send_cmdCore bus (send_cmd bus initBusState 55 0).2 (c &&& 0x7F) arg) := by
  have e55 : send_cmd bus initBusState 55 0 = send_cmdCore bus initBusState 55 0 := by
    have h : (55 : Nat) &&& 128 = 0 := by decide
    simp [send_cmd, h]
  refine ⟨fun hA hA12 hrx => ?_, fun hB h55 => ?_, fun hB h55 => ?_⟩
  · have hsc : send_cmd bus initBusState c arg =
        send_cmdCore bus initBusState c arg := by
      simp [send_cmd, hA]
    have hdesel : deselect bus initBusState = ⟨1, [(0xFF, true)], true⟩ := rfl
    have hsel : sd_select bus (deselect bus initBusState) =
        (true, ⟨2, [(0xFF, true), (0xFF, false)], false⟩) := by
      rw [hdesel]
      simp only [sd_select, wait_ready]
      rw [waitReadyGo_ready bus (cs_low ⟨1, [(0xFF, true)], true⟩) hrx 500]
      simp [xchg_spi, cs_low]
    have hcore : send_cmdCore bus initBusState c arg =
        cmdFrame bus ⟨2, [(0xFF, true), (0xFF, false)], false⟩ c arg := by
      simp [send_cmdCore, hA12, hsel]
    have hframe : cmdFrame bus ⟨2, [(0xFF, true), (0xFF, false)], false⟩ c arg =
        resPollGo bus 10
          ⟨8, [((0xFF : Nat), true), ((0xFF : Nat), false),
               ((0x40 ||| c) % 256, false),
               ((arg >>> 24) % 256, false), ((arg >>> 16) % 256, false),
               ((arg >>> 8) % 256, false), (arg % 256, false),
               ((if c = 0 then 0x95 else if c = 8 then 0x87 else 0x01) % 256,
                false)], false⟩ := by
      simp only [cmdFrame, if_neg hA12, xchg_spi_pos, xchg_spi_cs, xchg_spi_sent]
      norm_num [xchg_spi]
    obtain ⟨k, hk1, hk10, hsent, hpos, hcs, hres, hlast⟩ :=
      resPollGo_trace bus 9
        ⟨8, [((0xFF : Nat), true), ((0xFF : Nat), false),
             ((0x40 ||| c) % 256, false),
             ((arg >>> 24) % 256, false), ((arg >>> 16) % 256, false),
             ((arg >>> 8) % 256, false), (arg % 256, false),
             ((if c = 0 then 0x95 else if c = 8 then 0x87 else 0x01) % 256,
              false)], false⟩
    have h910 : (9 : Nat) + 1 = 10 := rfl
    rw [h910] at hk10 hsent hpos hres hlast
    refine ⟨k, hk1, hk10, ?_, ?_, ?_⟩
    · rw [hsc, hcore, hframe]
      exact hsent
    · rw [hsc, hcore, hframe, hres]
      have harith : 8 + (k - 1) = 7 + k := by omega
      rw [harith]
    · rcases hlast with hl | hl
      · exact Or.inl (by rw [hsc, hcore, hframe]; exact hl)
      · exact Or.inr hl
  · rw [e55] at h55
    have hred : send_cmd bus initBusState c arg =
        if 1 < (send_cmdCore bus initBusState 55 0).1
        then send_cmdCore bus initBusState 55 0
        else send_cmdCore bus (send_cmdCore bus initBusState 55 0).2
          (c &&& 0x7F) arg := by
      simp [send_cmd, hB]
    rw [hred, if_pos h55, e55]
  · rw [e55] at h55
    have hred : send_cmd bus initBusState c arg =
        if 1 < (send_cmdCore bus initBusState 55 0).1
        then send_cmdCore bus initBusState 55 0
        else send_cmdCore bus (send_cmdCore bus initBusState 55 0).2
          (c &&& 0x7F) arg := by
      simp [send_cmd, hB]
    rw [hred, if_neg (by omega), e55]

/-- A bus that is ready at reselect, keeps the line at 0xFF while the frame
is clocked out, and answers the first response poll (exchange 8) with the R1
byte 0x00. -/
def busCmd : Bus := ⟨fun i => if i = 8 then 0 else 0xFF⟩

/-- C2 witness: sending CMD17 with argument 0x010203 = 66051 on the concrete
bus transmits the deselect and readiness fillers, the 6-byte frame with CRC
0x01, and k ≤ 10 polls, returning the k-th polled byte. -/
theorem send_cmd_framing_witness :
    ∃ k, 1 ≤ k ∧ k ≤ 10 ∧
      (send_cmd busCmd initBusState 17 66051).2.sent =
        [((0xFF : Nat), true), ((0xFF : Nat), false),
         ((0x40 ||| 17) % 256, false),
         ((66051 >>> 24) % 256, false), ((66051 >>> 16) % 256, false),
         ((66051 >>> 8) % 256, false), (66051 % 256, false),
         ((if (17 : Nat) = 0 then 0x95 else if (17 : Nat) = 8 then 0x87
           else 0x01) % 256, false)] ++
        List.replicate k (0xFF, false) ∧
      (send_cmd busCmd initBusState 17 66051).1 = busCmd.rx (7 + k) % 256 ∧
      ((send_cmd busCmd initBusState 17 66051).1 &&& 0x80 = 0 ∨ k = 10) :=
  (send_cmd_framing busCmd 17 66051 (by decide) (by decide)).1
    (by decide) (by decide) (by decide)

end LonganSd
